import Mathlib

/-!
Verification development for the MoveToMapPokemon task
(src/pokemongo_bot/cell_workers/move_to_map_pokemon.py).

Shallow embedding conventions:
* Geographic coordinates, distances and speeds are rationals.
* The Python expression comparing two coordinates via the four-decimal
  format string is modelled by comparing the integers obtained by
  rounding the coordinate times 10000 (the exact rounding of ties is
  abstracted; no statement below depends on tie behaviour).
* The external haversine helper distance from cell_workers.utils is not
  part of this file's source; the filters receive it as an explicit
  function parameter and only its resulting value matters to any claim.
* Dictionaries from the Python code become structures carrying exactly
  the fields the code reads or writes; the catch allow-list dictionary
  becomes an association list keyed by species name.
* Timestamps are integers (seconds); raw feed expiries are naturals in
  milliseconds, divided by 1000 with truncation as int() does on
  non-negative values.
-/

namespace MoveToMapPokemon

/-- Worker results returned by a tick, mirroring worker_result.WorkerResult. -/
inductive WorkerResult where
  | SUCCESS
  | RUNNING
  | ERROR
deriving DecidableEq, Repr

/-- Key of one coordinate under the four-decimal comparison used by
is_inspected and inspect: the Python code compares the strings produced
by a fixed four-decimal format, which identifies two coordinates exactly
when they round to the same multiple of 1/10000. -/
def key4 (x : ℚ) : ℤ := round (x * 10000)

/-- Enriched sighting as built by the candidate filters: the fields of the
pokemon dictionary that the module reads after enrichment. -/
structure Candidate where
  pokemon_id : ℕ
  name : String
  latitude : ℚ
  longitude : ℚ
  disappear_time : ℤ
  is_vip : Bool
  priority : ℚ
  dist : ℚ
deriving DecidableEq, Repr

/-- Raw sighting from a feed before enrichment. Push mode reads the expiry
from the field expiration_timestamp_ms, pull mode from the field
disappear_time (also milliseconds); both are the field expiryMs here. -/
structure RawSighting where
  pokemon_id : ℕ
  latitude : ℚ
  longitude : ℚ
  expiryMs : ℕ
deriving DecidableEq, Repr

/-- Dedup-ledger membership test of is_inspected (lines 230 to 235): some
stored entry matches the given position on both coordinates after
four-decimal rounding. -/
def is_inspected (caught : List Candidate) (lat lon : ℚ) : Bool :=
  caught.any (fun cp =>
    key4 lat == key4 cp.latitude && key4 lon == key4 cp.longitude)

/-- Ledger insertion of inspect (lines 238 to 245): return unchanged on a
four-decimal duplicate (the inline duplicate loop is the very computation
of is_inspected), otherwise drop the oldest entry when already at 200
entries and append the new one. -/
def inspect (caught : List Candidate) (p : Candidate) : List Candidate :=
  if is_inspected caught p.latitude p.longitude then caught
  else if 200 ≤ caught.length then caught.drop 1 ++ [p]
  else caught ++ [p]

/-- Mutable state touched by the snipe protocol: the trainer position and
the dedup ledger. -/
structure SnipeSt where
  pos : ℚ × ℚ
  caught : List Candidate
deriving DecidableEq, Repr

/-- Snipe protocol (lines 247 to 311). The position is backed up, the
trainer is teleported to the target, existence is the trusted social flag
or else the outcome of scanning the refetched surroundings (an external
observation, passed in as verifyFound). On both the capture and the abort
branch the target is recorded in the ledger, the trainer is moved back to
the backed-up position via set_position, and SUCCESS is returned. -/
def snipe (enableSocial : Bool) (verifyFound : Bool) (p : Candidate)
    (st : SnipeSt) : WorkerResult × SnipeSt :=
  let lastPosition := st.pos
  let stTele : SnipeSt := { st with pos := (p.latitude, p.longitude) }
  let ex := enableSocial || verifyFound
  if ex then
    (WorkerResult.SUCCESS,
      { stTele with
          pos := lastPosition
          caught := inspect stTele.caught p })
  else
    (WorkerResult.SUCCESS,
      { stTele with
          caught := inspect stTele.caught p
          pos := lastPosition })

/-- Task configuration consulted by the module: the catch allow-list with
per-species priority weights as an association list, and the plain
configuration scalars, with the defaults of config.get already applied. -/
structure TaskConfig where
  catchList : List (String × ℚ)
  snipe : Bool
  max_sniping_distance : ℚ
  max_walking_distance : ℚ
  mode : String
  prioritize_vips : Bool
  min_ball : ℕ
  skip_rounds : ℕ
  snipe_high_prio_only : Bool
  snipe_high_prio_threshold : ℚ
  snipe_max_in_chain : ℕ

/-- Membership of a species name in the catch allow-list, the Python
expression name in config catch. -/
def catchHas (cfg : TaskConfig) (nm : String) : Bool :=
  (cfg.catchList.lookup nm).isSome

/-- Priority weight of a species, the Python expression
config catch get name 0. -/
def catchPriority (cfg : TaskConfig) (nm : String) : ℚ :=
  (cfg.catchList.lookup nm).getD 0

/-- Read-only context of one candidate-filter call: configuration, the VIP
set and species table, the current ledger, the trainer position, the clock,
the walk-speed bounds, and the external distance helper. -/
structure FilterEnv where
  cfg : TaskConfig
  vips : List String
  pokemonData : List String
  caught : List Candidate
  posLat : ℚ
  posLon : ℚ
  now : ℤ
  walk_max : ℚ
  walk_min : ℚ
  distanceFn : ℚ → ℚ → ℚ → ℚ → ℚ

/-- Mean walking speed, the Python expression
walk_max plus walk_min over two. -/
def mean_walk_speed (env : FilterEnv) : ℚ := (env.walk_max + env.walk_min) / 2

/-- Enrichment both feed modes perform on a raw sighting: resolve the
species name by id from the species table, derive the VIP flag from the
VIP set, convert the expiry to seconds, attach the priority weight and the
distance from the current trainer position. -/
def enrich (env : FilterEnv) (r : RawSighting) : Candidate :=
  let nm := env.pokemonData.getD (r.pokemon_id - 1) ""
  { pokemon_id := r.pokemon_id
    name := nm
    latitude := r.latitude
    longitude := r.longitude
    disappear_time := ((r.expiryMs / 1000 : ℕ) : ℤ)
    is_vip := env.vips.contains nm
    priority := catchPriority env.cfg nm
    dist := env.distanceFn env.posLat env.posLon r.latitude r.longitude }

/-- Per-item body of the push-mode filter loop (lines 112 to 151): reject
when the species is not allow-listed, when the ledger already holds the
position, when the distance exceeds the maximum sniping distance (with no
regard to the snipe toggle), when it exceeds the maximum walking distance
while sniping is off, or when the target is unreachable on foot before
expiry while sniping is off. -/
def processSocial (env : FilterEnv) (r : RawSighting) : Option Candidate :=
  let p := enrich env r
  if catchHas env.cfg p.name = false then none
  else if is_inspected env.caught p.latitude p.longitude = true then none
  else if p.dist > env.cfg.max_sniping_distance then none
  else if p.dist > env.cfg.max_walking_distance ∧ env.cfg.snipe = false then none
  else if p.dist > ((p.disappear_time - env.now : ℤ) : ℚ) * mean_walk_speed env
      ∧ env.cfg.snipe = false then none
  else some p

/-- Push-mode candidate filter get_pokemon_from_social (lines 101 to 152):
an absent or empty buffer yields no candidates, otherwise the buffer is
drained through the per-item body in feed order. -/
def get_pokemon_from_social (env : FilterEnv)
    (mqtt : Option (List RawSighting)) : List Candidate :=
  match mqtt with
  | none => []
  | some l => l.filterMap (processSocial env)

/-- Per-item body of the pull-mode filter loop (lines 170 to 226): reject
when the species is neither allow-listed nor VIP, when the ledger already
holds the position, when the distance exceeds the maximum sniping distance
while sniping is on, when it exceeds the maximum walking distance while
sniping is off, or when the target is unreachable on foot before expiry
while sniping is off. -/
def processUrl (env : FilterEnv) (r : RawSighting) : Option Candidate :=
  let p := enrich env r
  if catchHas env.cfg p.name = false ∧ p.is_vip = false then none
  else if is_inspected env.caught p.latitude p.longitude = true then none
  else if p.dist > env.cfg.max_sniping_distance ∧ env.cfg.snipe = true then none
  else if p.dist > env.cfg.max_walking_distance ∧ env.cfg.snipe = false then none
  else if p.dist > ((p.disappear_time - env.now : ℤ) : ℚ) * mean_walk_speed env
      ∧ env.cfg.snipe = false then none
  else some p

/-- Pull-mode candidate filter get_pokemon_from_url (lines 154 to 228): a
failed fetch or malformed body yields no candidates, otherwise the parsed
array is run through the per-item body in feed order. -/
def get_pokemon_from_url (env : FilterEnv)
    (resp : Option (List RawSighting)) : List Candidate :=
  match resp with
  | none => []
  | some l => l.filterMap (processUrl env)

/-- Sample candidate used by concrete instantiations. -/
def sampleCand : Candidate :=
  { pokemon_id := 63
    name := "Abra"
    latitude := 1
    longitude := 2
    disappear_time := 1000
    is_vip := false
    priority := 5
    dist := 3 }

/-- Concrete configuration for counterexamples and witnesses: one
allow-listed species, sniping disabled, maximum sniping distance 100,
maximum walking distance 1000. -/
def cexCfg : TaskConfig :=
  { catchList := [("Abra", 10)]
    snipe := false
    max_sniping_distance := 100
    max_walking_distance := 1000
    mode := "priority"
    prioritize_vips := false
    min_ball := 1
    skip_rounds := 30
    snipe_high_prio_only := false
    snipe_high_prio_threshold := 400
    snipe_max_in_chain := 2 }

/-- Concrete filter context whose external distance helper reports 500 for
every pair of positions. -/
def cexEnv : FilterEnv :=
  { cfg := cexCfg
    vips := []
    pokemonData := ["Abra"]
    caught := []
    posLat := 0
    posLon := 0
    now := 0
    walk_max := 4
    walk_min := 4
    distanceFn := fun _ _ _ _ => 500 }

/-- Concrete raw sighting of species 1 expiring far in the future. -/
def cexRaw : RawSighting :=
  { pokemon_id := 1
    latitude := 5
    longitude := 5
    expiryMs := 1000000000 }

/-- Variant of the concrete context whose distance helper reports 50. -/
def nearEnv : FilterEnv := { cexEnv with distanceFn := fun _ _ _ _ => 50 }

/-- Variant of the near context with sniping enabled. -/
def snipeOnEnv : FilterEnv :=
  { nearEnv with cfg := { cexCfg with snipe := true } }

/-- Variant of the near context with an empty allow-list and the sample
species marked VIP. -/
def vipEnv : FilterEnv :=
  { nearEnv with
      vips := ["Abra"]
      cfg := { cexCfg with catchList := [] } }

/-- Four-decimal position key of a ledger entry: the pair of rounded
coordinates that is_inspected compares. -/
def posKey (c : Candidate) : ℤ × ℤ := (key4 c.latitude, key4 c.longitude)

/-- Candidate sitting at integer latitude i and longitude zero, used to
build concrete ledgers. -/
def gridCand (i : ℕ) : Candidate :=
  { pokemon_id := 1
    name := "Abra"
    latitude := (i : ℚ)
    longitude := 0
    disappear_time := 0
    is_vip := false
    priority := 0
    dist := 0 }

/-- Concrete full ledger of 200 entries at pairwise distinct positions. -/
def ledger200 : List Candidate := (List.range 200).map gridCand

/-- Concrete fresh candidate whose position matches no ledger200 entry. -/
def farCand : Candidate := gridCand 1000

/-- Stable descending in-place sort by a key, the semantics of the Python
list sort with a key function and reverse set: a stable sort placing
higher keys first, equal keys keeping their original relative order.
Insertion sort with the relation comparing flipped keys realises exactly
that order. -/
def sortDescBy {β : Type} [LinearOrder β] (k : Candidate → β)
    (l : List Candidate) : List Candidate :=
  l.insertionSort (fun a b => k b ≤ k a)

/-- Target-selector ordering of work (lines 346 to 349): when mode is
priority, stable-sort descending by priority; then, when VIP
prioritization is on, stable-sort descending by the VIP flag, so the VIP
pass is applied last. -/
def sortCandidates (cfg : TaskConfig) (l : List Candidate) : List Candidate :=
  let l1 := if cfg.mode = "priority" then sortDescBy (fun c => c.priority) l else l
  if cfg.prioritize_vips = true then sortDescBy (fun c => c.is_vip) l1 else l1

/-- Candidate with a given priority and VIP flag on the sample species. -/
def mkPrio (q : ℚ) (v : Bool) : Candidate :=
  { sampleCand with priority := q, is_vip := v }

/-- Non-VIP candidate of priority 5. -/
def cand5 : Candidate := mkPrio 5 false

/-- Non-VIP candidate of priority 20. -/
def cand20 : Candidate := mkPrio 20 false

/-- Non-VIP candidate of priority 1. -/
def cand1 : Candidate := mkPrio 1 false

/-- VIP candidate of priority 1. -/
def cand1v : Candidate := mkPrio 1 true

/-- Configuration in priority mode with VIP prioritization enabled. -/
def vipPrioCfg : TaskConfig := { cexCfg with prioritize_vips := true }

/-- Inputs of one work tick: the three ball counts read from the
inventory service, the filter context (configuration, ledger, position,
clock), the trusted-social flag, the bypass counter, the two feeds, and
the externally observed outcomes consumed during the tick: the snipe
validation scan, the presence of an eligible fort on the way, the two
walker step results, and the reachable-distance constant. -/
structure WorkEnv where
  pokeballs : ℕ
  greatballs : ℕ
  ultraballs : ℕ
  fenv : FilterEnv
  enable_social : Bool
  by_pass_times : ℕ
  mqtt : Option (List RawSighting)
  urlResp : Option (List RawSighting)
  verifyFound : Candidate → Bool
  capture_locked : Option ℕ
  nearestFortSome : Bool
  stepResult : Bool
  fortStepResult : Bool
  max_reachable : ℚ

/-- Observable outcome of one work tick: the returned worker result (none
when work falls through without a return statement), whether the ledger
file was rewritten, which feeds were consulted, the new bypass counter,
ledger, trainer position, whether an encounter notification was emitted,
and the final capture lock. -/
structure WorkOutcome where
  result : Option WorkerResult
  dumped : Bool
  fetchedSocial : Bool
  fetchedUrl : Bool
  by_pass_times : ℕ
  caught : List Candidate
  pos : ℚ × ℚ
  encounterEmitted : Bool
  capture_locked : Option ℕ
deriving Repr

/-- Outcome fields before the tick changes anything. -/
def baseOutcome (env : WorkEnv) : WorkOutcome :=
  { result := none
    dumped := false
    fetchedSocial := false
    fetchedUrl := false
    by_pass_times := env.by_pass_times
    caught := env.fenv.caught
    pos := (env.fenv.posLat, env.fenv.posLon)
    encounterEmitted := false
    capture_locked := env.capture_locked }

/-- Walking branch of work for a VIP target or no eligible fort (lines 390
to 402): lock capturing to the target species, take one walker step; when
the step call returns false and the remaining distance is under the
reachable constant, emit the encounter, unlock, record the target and
return SUCCESS; when it returns false but the distance is not under the
constant, return RUNNING; when it returns true, fall through with no
return value. -/
def walkToTarget (env : WorkEnv) (o : WorkOutcome) (p : Candidate) :
    WorkOutcome :=
  let o1 := { o with capture_locked := some p.pokemon_id }
  if env.stepResult = false then
    if p.dist < env.max_reachable then
      { o1 with
          encounterEmitted := true
          capture_locked := none
          caught := inspect o1.caught p
          result := some WorkerResult.SUCCESS }
    else { o1 with result := some WorkerResult.RUNNING }
  else { o1 with result := none }

/-- High-priority-only snipe loop of work (lines 362 to 374): snipe every
listed candidate whose priority exceeds the threshold, stopping once the
chain-length bound is reached. -/
def snipeChain (env : WorkEnv) : List Candidate → ℕ → SnipeSt → SnipeSt
  | [], _, st => st
  | p :: rest, count, st =>
    if env.fenv.cfg.snipe_high_prio_threshold < p.priority then
      let st2 := (snipe env.enable_social (env.verifyFound p) p st).2
      let c := count + 1
      if env.fenv.cfg.snipe_max_in_chain ≤ c then st2
      else snipeChain env rest c st2
    else snipeChain env rest count st

/-- Tail of work after the feed was fetched (lines 346 to 407): sort, stop
successfully on an empty list, otherwise take the head; in snipe mode run
the snipe protocol (chained over the list in high-priority-only mode);
otherwise re-check the ball gate and dispatch walking either directly to
the target (VIP or no fort) or through the nearest fort. -/
def workAfterFeed (env : WorkEnv) (o : WorkOutcome)
    (pokemonList : List Candidate) : WorkOutcome :=
  match sortCandidates env.fenv.cfg pokemonList with
  | [] => { o with result := some WorkerResult.SUCCESS }
  | p :: _ =>
    if env.fenv.cfg.snipe = true then
      if env.fenv.cfg.snipe_high_prio_only = true then
        let st := snipeChain env (sortCandidates env.fenv.cfg pokemonList) 0
          { pos := o.pos, caught := o.caught }
        { o with
            result := some WorkerResult.SUCCESS
            pos := st.pos
            caught := st.caught }
      else
        let r := snipe env.enable_social (env.verifyFound p) p
          { pos := o.pos, caught := o.caught }
        { o with result := some r.1, pos := r.2.pos, caught := r.2.caught }
    else
      if env.pokeballs + env.greatballs + env.ultraballs
          < env.fenv.cfg.min_ball then
        { o with result := some WorkerResult.SUCCESS }
      else
        if p.is_vip = true ∨ env.nearestFortSome = false then
          walkToTarget env o p
        else
          if env.fortStepResult = false then
            { o with result := some WorkerResult.RUNNING }
          else { o with result := none }

/-- Work tick (lines 318 to 407): return SUCCESS at once when the summed
ball counts are under the configured minimum, otherwise rewrite the ledger
file, fetch the feed selected by the trusted-social flag (subject to the
bypass counter when sniping in push mode), and hand the candidate list to
the selector and dispatcher. -/
def work (env : WorkEnv) : WorkOutcome :=
  let balls := env.pokeballs + env.greatballs + env.ultraballs
  let o := baseOutcome env
  if balls < env.fenv.cfg.min_ball then
    { o with result := some WorkerResult.SUCCESS }
  else
    let o1 := { o with dumped := true }
    if env.enable_social = true then
      if env.fenv.cfg.snipe = true then
        if env.by_pass_times + 1 < env.fenv.cfg.skip_rounds then
          { o1 with
              result := some WorkerResult.SUCCESS
              by_pass_times := env.by_pass_times + 1 }
        else
          workAfterFeed env
            { o1 with by_pass_times := 0, fetchedSocial := true }
            (get_pokemon_from_social env.fenv env.mqtt)
      else
        workAfterFeed env { o1 with fetchedSocial := true }
          (get_pokemon_from_social env.fenv env.mqtt)
    else
      workAfterFeed env { o1 with fetchedUrl := true }
        (get_pokemon_from_url env.fenv env.urlResp)

/-- Concrete work context with no balls in the inventory. -/
def zeroBallEnv : WorkEnv :=
  { pokeballs := 0
    greatballs := 0
    ultraballs := 0
    fenv := cexEnv
    enable_social := false
    by_pass_times := 0
    mqtt := none
    urlResp := some [cexRaw]
    verifyFound := fun _ => false
    capture_locked := none
    nearestFortSome := false
    stepResult := false
    fortStepResult := false
    max_reachable := 100 }

/-- Concrete work context reaching the walking branch with the walker step
call returning true this tick. -/
def c3Env : WorkEnv := { zeroBallEnv with pokeballs := 10, fenv := nearEnv, stepResult := true }

/-- Variant of the walking context whose step call returns false. -/
def c3EnvW : WorkEnv := { c3Env with stepResult := false }

/-- Model of the persisted per-user file store: a partial map from path
strings to stored ledger lists. The JSON encoding and decoding of the
entry list is faithful on these records and is elided: file contents are
the decoded lists themselves. -/
def FileStore := String → Option (List Candidate)

/-- Joining of two path components, the os.path.join of the module on
relative components. -/
def pathJoin (a b : String) : String := a ++ "/" ++ b

/-- Path read at process start by initialize (lines 94 to 98): the
per-user file name directly under the base directory. -/
def initialize_data_file (base user : String) : String :=
  pathJoin base ("map-caught-" ++ user ++ ".json")

/-- Path written by dump_caught_pokemon (lines 313 to 316): the per-user
file name under the data subdirectory of the base directory. -/
def dump_data_file (base user : String) : String :=
  pathJoin (pathJoin base "data") ("map-caught-" ++ user ++ ".json")

/-- Serialization of dump_caught_pokemon: rewrite the file at the dump
path wholesale with the current ledger. -/
def dump_caught_pokemon (fs : FileStore) (base user : String)
    (caught : List Candidate) : FileStore :=
  fun p => if p = dump_data_file base user then some caught else fs p

/-- Ledger reload of initialize: when a file exists at the read path load
it, otherwise the ledger stays empty. -/
def initializeCaught (fs : FileStore) (base user : String) : List Candidate :=
  match fs (initialize_data_file base user) with
  | some l => l
  | none => []

/-- Soundness of the push-mode per-item body: an accepted candidate is the
enrichment of its raw sighting, is allow-listed, does not match the ledger,
lies within the maximum sniping distance whatever the snipe toggle, and
lies within the maximum walking distance when sniping is off. -/
lemma processSocial_sound {env : FilterEnv} {r : RawSighting} {c : Candidate}
    (h : processSocial env r = some c) :
    c = enrich env r ∧
    catchHas env.cfg c.name = true ∧
    is_inspected env.caught c.latitude c.longitude = false ∧
    c.dist ≤ env.cfg.max_sniping_distance ∧
    (env.cfg.snipe = false → c.dist ≤ env.cfg.max_walking_distance) := by
  simp only [processSocial] at h
  split_ifs at h with h1 h2 h3 h4 h5
  injection h with hc
  subst hc
  refine ⟨rfl, by simpa using h1, by simpa using h2, not_lt.mp h3, ?_⟩
  intro hs
  by_contra hgt
  exact h4 ⟨not_le.mp hgt, hs⟩

/-- Soundness of the pull-mode per-item body: an accepted candidate is the
enrichment of its raw sighting, is allow-listed or VIP, does not match the
ledger, lies within the maximum sniping distance when sniping is on, and
lies within the maximum walking distance when sniping is off. -/
lemma processUrl_sound {env : FilterEnv} {r : RawSighting} {c : Candidate}
    (h : processUrl env r = some c) :
    c = enrich env r ∧
    (catchHas env.cfg c.name = true ∨ c.is_vip = true) ∧
    is_inspected env.caught c.latitude c.longitude = false ∧
    (env.cfg.snipe = true → c.dist ≤ env.cfg.max_sniping_distance) ∧
    (env.cfg.snipe = false → c.dist ≤ env.cfg.max_walking_distance) := by
  simp only [processUrl] at h
  split_ifs at h with h1 h2 h3 h4 h5
  injection h with hc
  subst hc
  refine ⟨rfl, ?_, by simpa using h2, ?_, ?_⟩
  · by_cases hl : catchHas env.cfg (enrich env r).name = true
    · exact Or.inl hl
    · refine Or.inr ?_
      by_contra hv
      exact h1 ⟨by simpa using hl, by simpa using hv⟩
  · intro hs
    by_contra hgt
    exact h3 ⟨not_le.mp hgt, hs⟩
  · intro hs
    by_contra hgt
    exact h4 ⟨not_le.mp hgt, hs⟩

/-- C5: for every target and every pre-state, on the capture path and on
the abort path alike, the snipe protocol leaves the trainer position equal
to the position backed up before relocation. -/
theorem c5_snipe_restores_position (enableSocial verifyFound : Bool)
    (p : Candidate) (st : SnipeSt) :
    (snipe enableSocial verifyFound p st).2.pos = st.pos := by
  unfold snipe
  by_cases h : (enableSocial || verifyFound) = true <;> simp [h]

/-- C10: inserting a target whose four-decimal position key already matches
an existing ledger entry leaves the ledger unchanged. -/
theorem c10_inspect_idempotent (caught : List Candidate) (p : Candidate)
    (h : is_inspected caught p.latitude p.longitude = true) :
    inspect caught p = caught := by
  simp [inspect, h]

/-- C10 witness: a concrete ledger holding the sample candidate is
unchanged by inserting that very candidate again. -/
theorem c10_witness : inspect [sampleCand] sampleCand = [sampleCand] :=
  c10_inspect_idempotent [sampleCand] sampleCand (by simp [is_inspected])

/-- Membership of the enriched sample sighting in the push-mode output of
the near context: every rejection test of the loop body fails. -/
lemma mem_social_nearEnv :
    enrich nearEnv cexRaw ∈ get_pokemon_from_social nearEnv (some [cexRaw]) := by
  simp only [get_pokemon_from_social]
  refine List.mem_filterMap.mpr ⟨cexRaw, by simp, ?_⟩
  simp only [processSocial]
  rw [if_neg (by decide), if_neg (by decide), if_neg (by decide),
    if_neg (by decide),
    if_neg (by norm_num [enrich, mean_walk_speed, nearEnv, cexEnv, cexCfg, cexRaw])]

/-- Membership of the enriched sample sighting in the pull-mode output of
the sniping-enabled near context. -/
lemma mem_url_snipeOnEnv :
    enrich snipeOnEnv cexRaw ∈ get_pokemon_from_url snipeOnEnv (some [cexRaw]) := by
  simp only [get_pokemon_from_url]
  refine List.mem_filterMap.mpr ⟨cexRaw, by simp, ?_⟩
  simp only [processUrl]
  rw [if_neg (by decide), if_neg (by decide), if_neg (by decide),
    if_neg (by decide),
    if_neg (by norm_num [enrich, mean_walk_speed, snipeOnEnv, nearEnv, cexEnv, cexCfg, cexRaw])]

/-- C7: in both feed modes, every candidate returned by the filter fails
the ledger test: a sighting whose four-decimal position matches an
existing ledger entry never reaches the returned list. -/
theorem c7_ledger_suppression (env : FilterEnv)
    (mqtt resp : Option (List RawSighting)) (c : Candidate)
    (h : c ∈ get_pokemon_from_social env mqtt ∨ c ∈ get_pokemon_from_url env resp) :
    is_inspected env.caught c.latitude c.longitude = false := by
  rcases h with h | h
  · rcases mqtt with _ | l
    · simp [get_pokemon_from_social] at h
    · simp only [get_pokemon_from_social] at h
      obtain ⟨r, hr, hpr⟩ := List.mem_filterMap.mp h
      exact (processSocial_sound hpr).2.2.1
  · rcases resp with _ | l
    · simp [get_pokemon_from_url] at h
    · simp only [get_pokemon_from_url] at h
      obtain ⟨r, hr, hpr⟩ := List.mem_filterMap.mp h
      exact (processUrl_sound hpr).2.2.1

/-- C7 witness: the near context's concrete push output satisfies the
suppression property. -/
theorem c7_witness :
    is_inspected nearEnv.caught (enrich nearEnv cexRaw).latitude
      (enrich nearEnv cexRaw).longitude = false :=
  c7_ledger_suppression nearEnv (some [cexRaw]) none (enrich nearEnv cexRaw)
    (Or.inl mem_social_nearEnv)

/-- C6: the allow-list check differs by feed mode: push mode only ever
returns allow-listed candidates, VIP or not, while pull mode accepts a
non-allow-listed sighting that is VIP-flagged whenever the remaining
rejection tests of its loop body fail. -/
theorem c6_allowlist_asymmetry :
    (∀ (env : FilterEnv) (mqtt : Option (List RawSighting)) (c : Candidate),
        c ∈ get_pokemon_from_social env mqtt →
        catchHas env.cfg c.name = true) ∧
    (∀ (env : FilterEnv) (l : List RawSighting) (r : RawSighting),
        r ∈ l →
        catchHas env.cfg (enrich env r).name = false →
        (enrich env r).is_vip = true →
        is_inspected env.caught (enrich env r).latitude (enrich env r).longitude = false →
        ¬((enrich env r).dist > env.cfg.max_sniping_distance ∧ env.cfg.snipe = true) →
        ¬((enrich env r).dist > env.cfg.max_walking_distance ∧ env.cfg.snipe = false) →
        ¬((enrich env r).dist >
            (((enrich env r).disappear_time - env.now : ℤ) : ℚ) * mean_walk_speed env
          ∧ env.cfg.snipe = false) →
        enrich env r ∈ get_pokemon_from_url env (some l)) := by
  constructor
  · intro env mqtt c h
    rcases mqtt with _ | l
    · simp [get_pokemon_from_social] at h
    · simp only [get_pokemon_from_social] at h
      obtain ⟨r, hr, hpr⟩ := List.mem_filterMap.mp h
      exact (processSocial_sound hpr).2.1
  · intro env l r hrl hcatch hvip hinsp h3 h4 h5
    simp only [get_pokemon_from_url]
    refine List.mem_filterMap.mpr ⟨r, hrl, ?_⟩
    simp only [processUrl]
    rw [if_neg (by simp [hvip]), if_neg (by simp [hinsp]), if_neg h3,
      if_neg h4, if_neg h5]

/-- C6 witness: the near context's push output is allow-listed, and the
VIP context's pull output accepts the non-allow-listed VIP sighting. -/
theorem c6_witness :
    catchHas nearEnv.cfg (enrich nearEnv cexRaw).name = true ∧
    enrich vipEnv cexRaw ∈ get_pokemon_from_url vipEnv (some [cexRaw]) :=
  ⟨c6_allowlist_asymmetry.1 nearEnv (some [cexRaw]) (enrich nearEnv cexRaw)
      mem_social_nearEnv,
   c6_allowlist_asymmetry.2 vipEnv [cexRaw] cexRaw (by simp) (by decide)
      (by decide) (by decide) (by decide) (by decide)
      (by norm_num [enrich, mean_walk_speed, vipEnv, nearEnv, cexEnv, cexCfg, cexRaw])⟩

/-- C1 counterexample: with sniping disabled, a pull-mode sighting at
distance 500, beyond the maximum sniping distance 100 but within the
maximum walking distance 1000, is returned by the pull-mode filter, so the
claim that the maximum-sniping-distance cut applies in both feed modes
regardless of the sniping toggle is false. -/
theorem c1_counterexample :
    cexEnv.cfg.snipe = false ∧
    (enrich cexEnv cexRaw).dist > cexEnv.cfg.max_sniping_distance ∧
    enrich cexEnv cexRaw ∈ get_pokemon_from_url cexEnv (some [cexRaw]) := by
  refine ⟨rfl, by decide, ?_⟩
  simp only [get_pokemon_from_url]
  refine List.mem_filterMap.mpr ⟨cexRaw, by simp, ?_⟩
  simp only [processUrl]
  rw [if_neg (by decide), if_neg (by decide), if_neg (by decide),
    if_neg (by decide),
    if_neg (by norm_num [enrich, mean_walk_speed, cexEnv, cexCfg, cexRaw])]

/-- C1 (amended): the maximum-sniping-distance cut is unconditional in
push mode, and applies in pull mode when sniping is enabled; with sniping
disabled, pull mode bounds the distance only by the walking checks. -/
theorem c1_max_sniping_distance :
    (∀ (env : FilterEnv) (mqtt : Option (List RawSighting)) (c : Candidate),
        c ∈ get_pokemon_from_social env mqtt →
        c.dist ≤ env.cfg.max_sniping_distance) ∧
    (∀ (env : FilterEnv) (resp : Option (List RawSighting)) (c : Candidate),
        env.cfg.snipe = true →
        c ∈ get_pokemon_from_url env resp →
        c.dist ≤ env.cfg.max_sniping_distance) := by
  constructor
  · intro env mqtt c h
    rcases mqtt with _ | l
    · simp [get_pokemon_from_social] at h
    · simp only [get_pokemon_from_social] at h
      obtain ⟨r, hr, hpr⟩ := List.mem_filterMap.mp h
      exact (processSocial_sound hpr).2.2.2.1
  · intro env resp c hs h
    rcases resp with _ | l
    · simp [get_pokemon_from_url] at h
    · simp only [get_pokemon_from_url] at h
      obtain ⟨r, hr, hpr⟩ := List.mem_filterMap.mp h
      exact (processUrl_sound hpr).2.2.2.1 hs

/-- C1 witness: the concrete push output of the near context and the
concrete pull output of the sniping-enabled context both satisfy the
distance bound. -/
theorem c1_witness :
    (enrich nearEnv cexRaw).dist ≤ nearEnv.cfg.max_sniping_distance ∧
    (enrich snipeOnEnv cexRaw).dist ≤ snipeOnEnv.cfg.max_sniping_distance :=
  ⟨c1_max_sniping_distance.1 nearEnv (some [cexRaw]) (enrich nearEnv cexRaw)
      mem_social_nearEnv,
   c1_max_sniping_distance.2 snipeOnEnv (some [cexRaw]) (enrich snipeOnEnv cexRaw)
      rfl mem_url_snipeOnEnv⟩

/-- Characterization of a failing ledger test: no stored entry matches the
queried position on both rounded coordinates. -/
lemma is_inspected_eq_false_iff (caught : List Candidate) (lat lon : ℚ) :
    is_inspected caught lat lon = false ↔
      ∀ c ∈ caught,
        ¬(key4 lat = key4 c.latitude ∧ key4 lon = key4 c.longitude) := by
  simp [is_inspected, not_and]

/-- Value of the four-decimal key on an integer coordinate. -/
lemma key4_natCast (n : ℕ) : key4 (n : ℚ) = 10000 * n := by
  unfold key4
  have h : ((n : ℚ) * 10000) = ((10000 * n : ℕ) : ℚ) := by push_cast; ring
  rw [h, round_natCast]
  push_cast
  ring

/-- Length of the concrete full ledger. -/
lemma ledger200_length : ledger200.length = 200 := by
  simp [ledger200]

/-- Head of the concrete full ledger. -/
lemma ledger200_head : ledger200.head? = some (gridCand 0) := by
  rw [ledger200, List.head?_map]
  rfl

/-- Entries of the concrete full ledger have pairwise distinct keys. -/
lemma ledger200_pairwise :
    ledger200.Pairwise (fun a b => posKey a ≠ posKey b) := by
  rw [ledger200, List.pairwise_map]
  refine (List.pairwise_lt_range 200).imp ?_
  intro a b hab
  simp only [posKey, gridCand, key4_natCast, ne_eq, Prod.mk.injEq, not_and]
  intro h
  omega

/-- The fresh candidate matches no entry of the concrete full ledger. -/
lemma ledger200_not_far :
    is_inspected ledger200 farCand.latitude farCand.longitude = false := by
  rw [is_inspected_eq_false_iff]
  intro c hc
  simp only [ledger200, List.mem_map, List.mem_range] at hc
  obtain ⟨i, hi, rfl⟩ := hc
  rintro ⟨h1, h2⟩
  simp only [farCand, gridCand] at h1
  rw [key4_natCast, key4_natCast] at h1
  omega

/-- C4: a ledger holding at most 200 entries still holds at most 200 after
any insertion; inserting a fresh position into a full ledger of 200 drops
exactly the oldest entry and appends the new one, keeping the length at
200, and when the stored keys are pairwise distinct the evicted head's
position is no longer matched by is_inspected. -/
theorem c4_ledger_capacity_fifo (caught : List Candidate) (p : Candidate) :
    (caught.length ≤ 200 → (inspect caught p).length ≤ 200) ∧
    (caught.length = 200 →
      is_inspected caught p.latitude p.longitude = false →
      inspect caught p = caught.drop 1 ++ [p] ∧
      (inspect caught p).length = 200 ∧
      ∀ e0, caught.head? = some e0 →
        caught.Pairwise (fun a b => posKey a ≠ posKey b) →
        is_inspected (inspect caught p) e0.latitude e0.longitude = false) := by
  constructor
  · intro hle
    unfold inspect
    split_ifs with h1 h2
    · exact hle
    · simp only [List.length_append, List.length_drop, List.length_cons,
        List.length_nil]
      omega
    · simp only [List.length_append, List.length_cons, List.length_nil]
      omega
  · intro hlen hnot
    have h200 : 200 ≤ caught.length := hlen.ge
    have hins : inspect caught p = caught.drop 1 ++ [p] := by
      simp [inspect, hnot, h200]
    refine ⟨hins, ?_, ?_⟩
    · rw [hins]
      simp [List.length_drop, hlen]
    · intro e0 he0 hpw
      rcases caught with _ | ⟨a, t⟩
      · simp at hlen
      · have hea : a = e0 := by simpa using he0
        subst hea
        rw [hins]
        simp only [List.drop_succ_cons, List.drop_zero]
        rw [is_inspected_eq_false_iff]
        intro c hc
        rcases List.mem_append.mp hc with hct | hcp
        · have hne : posKey a ≠ posKey c := (List.pairwise_cons.mp hpw).1 c hct
          rintro ⟨h1, h2⟩
          exact hne (by simp [posKey, h1, h2])
        · have hcp2 : c = p := by simpa using hcp
          subst hcp2
          have hp := (is_inspected_eq_false_iff _ _ _).mp hnot a (by simp)
          rintro ⟨h1, h2⟩
          exact hp ⟨h1.symm, h2.symm⟩

/-- C4 witness: inserting the fresh candidate into the concrete full
ledger keeps the length at 200, drops the head, and the head's position is
no longer matched. -/
theorem c4_witness :
    (inspect ledger200 farCand).length = 200 ∧
    inspect ledger200 farCand = ledger200.drop 1 ++ [farCand] ∧
    is_inspected (inspect ledger200 farCand) (gridCand 0).latitude
      (gridCand 0).longitude = false := by
  have h := (c4_ledger_capacity_fifo ledger200 farCand).2 ledger200_length
    ledger200_not_far
  exact ⟨h.2.1, h.1, h.2.2 (gridCand 0) ledger200_head ledger200_pairwise⟩

/-- Inserting an element into a list leaves the subsequence of elements
selected by any predicate that only holds on elements of one common key
unchanged up to prepending the inserted element: the element lands before
every stored element of its own key. -/
lemma orderedInsert_filter {β : Type} [LinearOrder β] (k : Candidate → β)
    (P : Candidate → Bool) (hP : ∀ a b, P a = true → P b = true → k a = k b)
    (x : Candidate) (l : List Candidate) :
    (l.orderedInsert (fun a b => k b ≤ k a) x).filter P
      = ((x :: l).filter P) := by
  induction l with
  | nil => rfl
  | cons y ys ih =>
    by_cases hr : k y ≤ k x
    · rw [List.orderedInsert, if_pos hr]
    · rw [List.orderedInsert, if_neg hr]
      have hlt : k x < k y := not_le.mp hr
      by_cases hy : P y = true
      · by_cases hx : P x = true
        · have heq := hP x y hx hy
          rw [heq] at hlt
          exact absurd hlt (lt_irrefl _)
        · simp [List.filter_cons, hy, hx, ih]
      · by_cases hx : P x = true
        · simp [List.filter_cons, hy, hx, ih]
        · simp [List.filter_cons, hy, hx, ih]

/-- Stability of the descending key sort: the subsequence of elements
selected by any predicate confined to one key value is preserved. -/
lemma sortDescBy_filter {β : Type} [LinearOrder β] (k : Candidate → β)
    (P : Candidate → Bool) (hP : ∀ a b, P a = true → P b = true → k a = k b)
    (l : List Candidate) :
    (sortDescBy k l).filter P = l.filter P := by
  unfold sortDescBy
  induction l with
  | nil => rfl
  | cons x xs ih =>
    rw [List.insertionSort, orderedInsert_filter k P hP, List.filter_cons,
      List.filter_cons, ih]

/-- Sortedness of the descending key sort: keys never increase along the
result. -/
lemma sortDescBy_sorted {β : Type} [LinearOrder β] (k : Candidate → β)
    (l : List Candidate) :
    (sortDescBy k l).Sorted (fun a b => k b ≤ k a) := by
  haveI : IsTotal Candidate (fun a b => k b ≤ k a) :=
    ⟨fun a b => le_total (k b) (k a)⟩
  haveI : IsTrans Candidate (fun a b => k b ≤ k a) :=
    ⟨fun _ _ _ h1 h2 => le_trans h2 h1⟩
  exact List.sorted_insertionSort _ l

/-- Permutation property of the descending key sort. -/
lemma sortDescBy_perm {β : Type} [LinearOrder β] (k : Candidate → β)
    (l : List Candidate) : List.Perm (sortDescBy k l) l :=
  List.perm_insertionSort _ l

/-- C8: the target selector applies the stable descending priority sort in
priority mode and then the stable descending VIP sort when VIP
prioritization is on, the VIP pass last; each pass is a stable descending
sort (sorted, a permutation, preserving the relative order of equal keys);
and on the concrete priorities 5, 20, 1 priority mode yields order 20, 5,
1, while making only the priority-1 candidate VIP moves it to the head. -/
theorem c8_target_selection :
    (∀ (cfg : TaskConfig) (l : List Candidate),
        cfg.mode = "priority" → cfg.prioritize_vips = true →
        sortCandidates cfg l
          = sortDescBy (fun c => c.is_vip)
              (sortDescBy (fun c => c.priority) l)) ∧
    (∀ l : List Candidate,
        ((sortDescBy (fun c => c.priority) l).Sorted
            (fun a b => b.priority ≤ a.priority)) ∧
        List.Perm (sortDescBy (fun c => c.priority) l) l) ∧
    (∀ l : List Candidate,
        ((sortDescBy (fun c => c.is_vip) l).Sorted
            (fun a b => b.is_vip ≤ a.is_vip)) ∧
        List.Perm (sortDescBy (fun c => c.is_vip) l) l) ∧
    (∀ (P : Candidate → Bool) (l : List Candidate),
        (∀ a b, P a = true → P b = true → a.priority = b.priority) →
        (sortDescBy (fun c => c.priority) l).filter P = l.filter P) ∧
    (∀ (P : Candidate → Bool) (l : List Candidate),
        (∀ a b, P a = true → P b = true → a.is_vip = b.is_vip) →
        (sortDescBy (fun c => c.is_vip) l).filter P = l.filter P) ∧
    sortCandidates cexCfg [cand5, cand20, cand1] = [cand20, cand5, cand1] ∧
    (sortCandidates vipPrioCfg [cand5, cand20, cand1v]).head? = some cand1v := by
  refine ⟨?_, ?_, ?_, ?_, ?_, ?_, ?_⟩
  · intro cfg l hm hv
    simp [sortCandidates, hm, hv]
  · intro l
    exact ⟨sortDescBy_sorted _ l, sortDescBy_perm _ l⟩
  · intro l
    exact ⟨sortDescBy_sorted _ l, sortDescBy_perm _ l⟩
  · intro P l hP
    exact sortDescBy_filter _ P hP l
  · intro P l hP
    exact sortDescBy_filter _ P hP l
  · decide
  · decide

/-- C8 witness: the selector pipeline equation and the stability equations
instantiated at the concrete candidate lists. -/
theorem c8_witness :
    sortCandidates vipPrioCfg [cand5, cand20, cand1v]
      = sortDescBy (fun c => c.is_vip)
          (sortDescBy (fun c => c.priority) [cand5, cand20, cand1v]) ∧
    (sortDescBy (fun c => c.priority) [cand5, cand20, cand1]).filter
        (fun c => decide (c.priority = 5))
      = [cand5, cand20, cand1].filter (fun c => decide (c.priority = 5)) ∧
    (sortDescBy (fun c => c.is_vip) [cand5, cand20, cand1v]).filter
        (fun c => c.is_vip)
      = [cand5, cand20, cand1v].filter (fun c => c.is_vip) :=
  ⟨c8_target_selection.1 vipPrioCfg [cand5, cand20, cand1v] rfl rfl,
   c8_target_selection.2.2.2.1 (fun c => decide (c.priority = 5))
     [cand5, cand20, cand1]
     (fun _ _ ha hb => (of_decide_eq_true ha).trans (of_decide_eq_true hb).symm),
   c8_target_selection.2.2.2.2.1 (fun c => c.is_vip) [cand5, cand20, cand1v]
     (fun _ _ ha hb => ha.trans hb.symm)⟩

/-- Concrete evaluation of the pull-mode filter in the near context: the
sample sighting passes every test. -/
lemma url_nearEnv_eval :
    get_pokemon_from_url nearEnv (some [cexRaw]) = [enrich nearEnv cexRaw] := by
  simp only [get_pokemon_from_url]
  have hp : processUrl nearEnv cexRaw = some (enrich nearEnv cexRaw) := by
    simp only [processUrl]
    rw [if_neg (by decide), if_neg (by decide), if_neg (by decide),
      if_neg (by decide),
      if_neg (by norm_num [enrich, mean_walk_speed, nearEnv, cexEnv, cexCfg, cexRaw])]
  simp [hp]

/-- Sorting a one-element candidate list is the identity in every mode. -/
lemma sortCandidates_singleton (cfg : TaskConfig) (c : Candidate) :
    sortCandidates cfg [c] = [c] := by
  unfold sortCandidates sortDescBy
  split_ifs <;> simp [List.insertionSort, List.orderedInsert]

/-- Routing of the work tick into the direct-walk branch: with enough
balls, pull mode, sniping off, a sorted candidate list headed by the
target, and the target VIP or no fort on the way, the tick outcome is the
walking branch applied after the ledger dump and the pull fetch. -/
lemma work_walk_route (env : WorkEnv) (p : Candidate) (rest : List Candidate)
    (hballs : ¬ (env.pokeballs + env.greatballs + env.ultraballs
        < env.fenv.cfg.min_ball))
    (hsoc : env.enable_social = false)
    (hsnipe : env.fenv.cfg.snipe = false)
    (hsort : sortCandidates env.fenv.cfg
        (get_pokemon_from_url env.fenv env.urlResp) = p :: rest)
    (hvip : p.is_vip = true ∨ env.nearestFortSome = false) :
    work env = walkToTarget env
      { baseOutcome env with dumped := true, fetchedUrl := true } p := by
  simp only [work]
  rw [if_neg hballs, if_neg (by simp [hsoc])]
  simp only [workAfterFeed, hsort]
  rw [if_neg (by simp [hsnipe]), if_neg hballs, if_pos hvip]

/-- C9: whenever the summed counts of the three capture-item categories
are strictly below the configured minimum, the work tick returns SUCCESS
at once, consulting neither the push buffer nor the pull address and not
even rewriting the ledger file. -/
theorem c9_inventory_gate (env : WorkEnv)
    (h : env.pokeballs + env.greatballs + env.ultraballs
        < env.fenv.cfg.min_ball) :
    (work env).result = some WorkerResult.SUCCESS ∧
    (work env).fetchedSocial = false ∧
    (work env).fetchedUrl = false ∧
    (work env).dumped = false := by
  simp [work, baseOutcome, h]

/-- C9 witness: the concrete empty inventory gates the tick. -/
theorem c9_witness :
    (work zeroBallEnv).result = some WorkerResult.SUCCESS ∧
    (work zeroBallEnv).fetchedSocial = false ∧
    (work zeroBallEnv).fetchedUrl = false ∧
    (work zeroBallEnv).dumped = false :=
  c9_inventory_gate zeroBallEnv (by decide)

/-- C3 counterexample: in the concrete walking context the step call
returns true for this tick and the remaining distance 50 is below the
reachable threshold 100, yet the tick emits no encounter notification and
returns no result at all, against the claim that an arrival report with
the distance under the threshold yields the encounter path, and also
against the claim that the tick otherwise reports still-running. -/
theorem c3_counterexample :
    c3Env.stepResult = true ∧
    (enrich nearEnv cexRaw).dist < c3Env.max_reachable ∧
    (work c3Env).encounterEmitted = false ∧
    (work c3Env).result = none := by
  have hw := work_walk_route c3Env (enrich nearEnv cexRaw) []
    (by decide) rfl rfl
    (by rw [show get_pokemon_from_url c3Env.fenv c3Env.urlResp
          = [enrich nearEnv cexRaw] from url_nearEnv_eval]
        exact sortCandidates_singleton _ _)
    (Or.inr rfl)
  refine ⟨rfl, by decide, ?_, ?_⟩ <;>
    rw [hw] <;>
    simp [walkToTarget, baseOutcome, show c3Env.stepResult = true from rfl]

/-- C3 (amended): in non-sniping pull mode with enough balls, a VIP target
or no eligible fort, when the walker step call returns false for this tick
and the target's remaining distance is below the reachable threshold, the
tick emits the encounter notification, releases the capture lock, records
the target in the ledger and returns SUCCESS; when the step call returns
false but the distance is not below the threshold it returns RUNNING; and
when the step call returns true the branch falls through, returning no
result and emitting nothing. -/
theorem c3_walking_branch (env : WorkEnv) (p : Candidate)
    (rest : List Candidate)
    (hballs : ¬ (env.pokeballs + env.greatballs + env.ultraballs
        < env.fenv.cfg.min_ball))
    (hsoc : env.enable_social = false)
    (hsnipe : env.fenv.cfg.snipe = false)
    (hsort : sortCandidates env.fenv.cfg
        (get_pokemon_from_url env.fenv env.urlResp) = p :: rest)
    (hvip : p.is_vip = true ∨ env.nearestFortSome = false) :
    (env.stepResult = false → p.dist < env.max_reachable →
      (work env).result = some WorkerResult.SUCCESS ∧
      (work env).encounterEmitted = true ∧
      (work env).capture_locked = none ∧
      (work env).caught = inspect env.fenv.caught p) ∧
    (env.stepResult = false → ¬ p.dist < env.max_reachable →
      (work env).result = some WorkerResult.RUNNING ∧
      (work env).encounterEmitted = false) ∧
    (env.stepResult = true →
      (work env).result = none ∧ (work env).encounterEmitted = false) := by
  have hw := work_walk_route env p rest hballs hsoc hsnipe hsort hvip
  rw [hw]
  refine ⟨?_, ?_, ?_⟩
  · intro hstep hdist
    simp [walkToTarget, hstep, hdist, baseOutcome]
  · intro hstep hdist
    simp [walkToTarget, hstep, hdist, baseOutcome]
  · intro hstep
    simp [walkToTarget, hstep, baseOutcome]

/-- C3 witness: in the concrete walking context whose step call returns
false, with distance 50 under threshold 100, the tick encounters,
unlocks, records and succeeds. -/
theorem c3_witness :
    (work c3EnvW).result = some WorkerResult.SUCCESS ∧
    (work c3EnvW).encounterEmitted = true ∧
    (work c3EnvW).capture_locked = none ∧
    (work c3EnvW).caught = inspect c3EnvW.fenv.caught (enrich nearEnv cexRaw) :=
  (c3_walking_branch c3EnvW (enrich nearEnv cexRaw) []
      (by decide) rfl rfl
      (by rw [show get_pokemon_from_url c3EnvW.fenv c3EnvW.urlResp
            = [enrich nearEnv cexRaw] from url_nearEnv_eval]
          exact sortCandidates_singleton _ _)
      (Or.inr rfl)).1 rfl (by decide)

/-- C2 exhibits a defect: dump_caught_pokemon writes the ledger under the
data subdirectory while initialize reads the per-user file directly under
the base directory, so the two paths always differ, and dumping a
one-entry ledger into an empty store and then reloading the way process
start does yields the empty list instead of the list written. -/
theorem c2_persistence_path_mismatch :
    (∀ base user : String,
        initialize_data_file base user ≠ dump_data_file base user) ∧
    initializeCaught
        (dump_caught_pokemon (fun _ => none) "base" "u" [sampleCand])
        "base" "u" = [] ∧
    [sampleCand] ≠ ([] : List Candidate) := by
  refine ⟨?_, by decide, by simp⟩
  intro base user h
  have hl := congrArg String.length h
  simp only [initialize_data_file, dump_data_file, pathJoin,
    String.length_append,
    show ("/" : String).length = 1 by decide,
    show ("map-caught-" : String).length = 11 by decide,
    show (".json" : String).length = 5 by decide,
    show ("data" : String).length = 4 by decide] at hl
  omega

end MoveToMapPokemon
